import Mathlib

set_option maxHeartbeats 1000000
set_option maxRecDepth 4000

/- Shallow embedding of `avalancheup-aws/src/install_subnet_chain/mod.rs`
   (the `install-subnet-chain` deployment workflow of avalanche-ops).

   Pure computations (S3 key rendering, remote command rendering, the
   node-id map deserialization) are embedded as Lean functions translated
   from the Rust source.  The effectful pipeline `execute` is embedded as a
   function over an explicit environment `Env` that decides the outcome of
   every external interaction (file existence, RPC lookups, S3 uploads,
   ledger transactions, SSM dispatch and polling); `execute` returns the
   final result together with the trace of side-effect events it performed,
   in order.  External services (the S3/SSM clients, the ledger wallet, the
   jsonrpc client) are out of scope of the repository and are represented
   by the oracle fields of `Env`, per the interface contracts of the spec. -/

/-- The u64 range bound: machine integers in the source are `u64`. -/
def u64Bound : Nat := 2 ^ 64

/-- Wrapping u64 subtraction: `a - b` on `u64` wraps modulo `2^64`
    (the subtraction `staking_period_in_days - 1` in the source is a plain
    `u64` subtraction with no underflow guard). -/
def u64_wrapping_sub (a b : Nat) : Nat := (a + u64Bound - b % u64Bound) % u64Bound

/-- Modelled from the spec: `units::cast_avax_to_xp_navax` (avalanche-types,
    not under src/) converts a P-chain AVAX amount into nAVAX; one AVAX is
    10^9 nAVAX, so the cast multiplies by 10^9 (into a 256-bit integer, so
    the multiplication itself cannot overflow). -/
def cast_avax_to_xp_navax (avax : Nat) : Nat := avax * 1000000000

/-- Splitting a character list at every occurrence of `c` (the separator
    is dropped; adjacent separators give empty segments). -/
def splitOnChar (c : Char) : List Char → List (List Char)
  | [] => [[]]
  | x :: xs =>
    match splitOnChar c xs with
    | [] => [[]]
    | r :: rs => if x = c then [] :: r :: rs else (x :: r) :: rs

/-- The last `/`-separated component of a path: Rust `Path::file_name`
    for the ordinary slash-separated paths the tool handles. -/
def baseName (p : String) : String :=
  String.mk (((splitOnChar (Char.ofNat 47) p.data).getLast?).getD [])

/-- The part of a file name before its last `.` (the whole name when it has
    no dot): the core of Rust `Path::file_stem`. -/
def stemCore (s : String) : String :=
  let segs := splitOnChar (Char.ofNat 46) s.data
  if segs.length ≤ 1 then s
  else String.mk (List.intercalate [Char.ofNat 46] segs.dropLast)

/-- Rust `Path::file_stem`: the file name with its extension removed; a
    leading dot (hidden file) is not treated as an extension separator. -/
def fileStem (p : String) : String :=
  match (baseName p).data with
  | c :: rest => if c = Char.ofNat 46 then "." ++ stemCore (String.mk rest)
                 else stemCore (baseName p)
  | [] => stemCore (baseName p)

/-- Does the string end in a `/`? -/
def strEndsWithSlash (s : String) : Bool :=
  match s.data.getLast? with
  | some c => c = Char.ofNat 47
  | none => false

/-- Is `pre` a leading piece of `s`?  (Character-list comparison.) -/
def strStartsWith (s pre : String) : Bool := List.isPrefixOf pre.data s.data

/-- Modelled from the spec: `s3::append_slash` (aws-manager dependency) is
    the key-prefix normalizer behind the spec's `prefix + ...` object-store
    key convention; a non-empty prefix is made to end with exactly one
    slash, the empty prefix is left empty. -/
def append_slash (s : String) : String :=
  if s = "" then "" else if strEndsWithSlash s then s else s ++ "/"

/-- Modelled from the spec: `subnet::vm_name_to_id` (avalanche-types, not
    under src/) "converts chain name to Id" when no `--vm-id` is given; it
    is a deterministic function of the chain name alone, modelled here as
    an abstract injective encoding of the name. -/
def vm_name_to_id (name : String) : String := "vm-id-of-" ++ name

/-- The `Flags` struct of the source (`node_ids_to_instance_ids` is a
    `HashMap<String, String>` in the source; it is embedded as the
    association list in the map's iteration order, which is the order the
    source's loops observe). -/
structure Flags where
  log_level : String
  skip_prompt : Bool
  region : String
  s3_bucket : String
  s3_key_prefix : String
  ssm_doc : String
  chain_rpc_url : String
  key : String
  staking_period_in_days : Nat
  staking_amount_in_avax : Nat
  subnet_config_local_path : String
  subnet_config_remote_dir : String
  vm_binary_local_path : String
  vm_binary_remote_dir : String
  vm_id : String
  chain_name : String
  chain_genesis_path : String
  chain_config_local_path : String
  chain_config_remote_dir : String
  avalanchego_config_remote_path : String
  node_ids_to_instance_ids : List (String × String)
deriving DecidableEq, Repr

/-- The resolved VM id: `ids::Id::from_str(&opts.vm_id)` when `--vm-id` is
    given (id parsing abstracted to the id string itself), otherwise
    `subnet::vm_name_to_id(&opts.chain_name)`. -/
def vmIdOf (cfg : Flags) : String :=
  if cfg.vm_id = "" then vm_name_to_id cfg.chain_name else cfg.vm_id

/-- `all_node_ids` of the source: the node ids in map-iteration order. -/
def nodeIds (cfg : Flags) : List String :=
  cfg.node_ids_to_instance_ids.map Prod.fst

/-- `all_instance_ids` of the source: the instance ids in the same order. -/
def instanceIds (cfg : Flags) : List String :=
  cfg.node_ids_to_instance_ids.map Prod.snd

/-- The S3 key the source computes for the subnet config upload:
    slash-normalized prefix followed by the file stem of the local path. -/
def subnet_config_s3_key (cfg : Flags) : String :=
  append_slash cfg.s3_key_prefix ++ fileStem cfg.subnet_config_local_path

/-- The S3 key the source computes for the VM binary upload:
    slash-normalized prefix followed by the VM id string. -/
def vm_binary_s3_key (cfg : Flags) : String :=
  append_slash cfg.s3_key_prefix ++ vmIdOf cfg

/-- The S3 key the source computes for the chain config upload:
    slash-normalized prefix followed by the file stem of the local path. -/
def chain_config_s3_key (cfg : Flags) : String :=
  append_slash cfg.s3_key_prefix ++ fileStem cfg.chain_config_local_path

/-- The base remote command line rendered for the install dispatch (the
    `subcmd` format string of the source, verbatim). -/
def install_subnet_subcmd (cfg : Flags) (subnetId : String) : String :=
  "install-subnet --log-level info --region " ++ cfg.region ++
  " --s3-bucket " ++ cfg.s3_bucket ++
  " --vm-binary-s3-key " ++ vm_binary_s3_key cfg ++
  " --vm-binary-local-path " ++ (append_slash cfg.vm_binary_remote_dir ++ vmIdOf cfg) ++
  " --subnet-id-to-track " ++ subnetId ++
  " --avalanchego-config-path " ++ cfg.avalanchego_config_remote_path

/-- The full `avalanched_args` rendered for the install dispatch: the base
    command, with the subnet-config flags appended when (and only when) a
    subnet-config local path was given. -/
def install_subnet_args (cfg : Flags) (subnetId : String) : String :=
  if cfg.subnet_config_local_path ≠ "" then
    install_subnet_subcmd cfg subnetId ++
    " --subnet-config-s3-key " ++ subnet_config_s3_key cfg ++
    " --subnet-config-local-path " ++
      (append_slash cfg.subnet_config_remote_dir ++ subnetId ++ ".json")
  else install_subnet_subcmd cfg subnetId

/-- The `avalanched_args` rendered for the chain-config dispatch (the
    `install-chain` format string of the source, verbatim). -/
def install_chain_args (cfg : Flags) (blockchainId : String) : String :=
  "install-chain --log-level info --region " ++ cfg.region ++
  " --s3-bucket " ++ cfg.s3_bucket ++
  " --chain-config-s3-key " ++ chain_config_s3_key cfg ++
  " --chain-config-local-path " ++
    (append_slash cfg.chain_config_remote_dir ++ blockchainId ++ "/config.json")

/-- One insertion into the node-id map, with the overwrite-on-duplicate-key
    semantics of map deserialization (`serde_json` into `HashMap`). -/
def insertEntry (m : List (String × String)) (k v : String) : List (String × String) :=
  if m.any (fun p => p.1 = k) then m.map (fun p => if p.1 = k then (k, v) else p)
  else m ++ [(k, v)]

/-- `HashMapParser::parse_ref`: deserializing the `--node-ids-to-instance-ids`
    JSON object (given as its entry list in textual order) into the map.
    Any well-formed object of strings is accepted; duplicate keys keep the
    last value, duplicate values are accepted unchecked. -/
def node_map_from_entries (entries : List (String × String)) : List (String × String) :=
  entries.foldl (fun m kv => insertEntry m kv.1 kv.2) []

/-- The `--staking-perioid-in-days` argument acceptance: the source parses
    it with `value_parser!(u64)` and no further range validation, so every
    u64 value is accepted. -/
def staking_period_accepted (d : Nat) : Prop := d < u64Bound

/-- Modelled from the spec: `validate_period_in_days(offset, days)` of the
    ledger wallet (avalanche-types, not under src/) sets the validation
    period start a fixed `offset`-day future from issuance and end =
    start + `days` days; this returns the period end in seconds. -/
def validate_period_end (nowUnix offsetDays days : Nat) : Nat :=
  nowUnix + offsetDays * 86400 + days * 86400

instance : DecidableEq (List (String × String)) := inferInstance

/-- Terminal statuses of one remote command invocation, per the dispatcher
    contract of the spec (success, failure, timeout). -/
inductive PollStatus
  | success
  | failure
  | timeout
deriving DecidableEq, Repr

/-- The kinds of artifact the run uploads. -/
inductive ArtifactKind
  | subnetConfig
  | vmBinary
  | chainConfig
deriving DecidableEq, Repr

/-- One externally visible interaction of `execute`, in the order the
    source performs them.  Read-only lookups (network id, P-chain balance,
    caller identity) are recorded alongside the mutating interactions
    (uploads, ledger issuances, command dispatch) and the per-target poll
    observations. -/
inductive Event
  | getNetworkId
  | getBalance
  | getIdentity
  | putObject (kind : ArtifactKind) (localPath bucket s3Key : String)
  | addValidator (nodeId : String) (stakeNavax offsetDays days : Nat)
  | createSubnet (dry : Bool)
  | sendCommand (ssmDoc : String) (targets : List String) (avalanchedArgs : String)
  | pollResult (instanceId : String) (status : PollStatus)
  | addSubnetValidator (nodeId subnetId : String) (offsetDays days : Nat)
  | createChain (subnetId vmId chainName : String) (dry : Bool)
deriving DecidableEq, Repr

/-- How a run ends in the source: an `Err` with a kind (`InvalidInput`
    for the input checks, `otherErr` for wrapped io/parse errors) or an
    abort through `unwrap`/`expect`, or `Ok(())`.  A declined prompt
    returns `Ok(())` with no report; a completed run prints the created
    subnet and blockchain ids, recorded here as the report. -/
inductive ErrKind
  | invalidInput
  | otherErr
  | panic
deriving DecidableEq, Repr

inductive ExecResult
  | success (report : Option (String × String))
  | failure (kind : ErrKind) (msg : String)
deriving DecidableEq, Repr

/-- The oracle for every external interaction of one run: which local
    files exist, what the RPC endpoints and the ledger return, whether
    each fallible call succeeds, the operator prompt selection, and the
    terminal poll status of every target.  Dry-pass ledger responses
    (`drySubnetId`, `dryChainId`) are separate from the real-pass ones. -/
structure Env where
  vmBinaryExists : Bool
  chainGenesisExists : Bool
  genesisReadOk : Bool
  genesisBytes : List Nat
  subnetConfigExists : Bool
  chainConfigExists : Bool
  networkIdOk : Bool
  networkId : Nat
  keyParseOk : Bool
  walletBuildOk : Bool
  balanceOk : Bool
  balance : Nat
  loadConfigOk : Bool
  identityOk : Bool
  promptSelection : Nat
  putSubnetConfigOk : Bool
  putVmBinaryOk : Bool
  putChainConfigOk : Bool
  addValidatorOk : String → Bool
  drySubnetOk : Bool
  drySubnetId : String
  realSubnetOk : Bool
  realSubnetId : String
  sendInstallOk : Bool
  pollInstall : String → PollStatus
  addSubnetValidatorOk : String → Bool
  dryChainOk : Bool
  dryChainId : String
  realChainOk : Bool
  realChainId : String
  sendChainConfigOk : Bool
  pollChainConfig : String → PollStatus

/-- Sequential per-item processing with fail-fast abort, as the source's
    `for` loops over ledger issuances behave: each item's interaction event
    is recorded (the issuance was attempted), and a failed item stops the
    loop (`unwrap` aborts the run).  Returns whether all items succeeded
    together with the recorded events. -/
def runSeq (f : α → Event) (ok : α → Bool) : List α → Bool × List Event
  | [] => (true, [])
  | x :: xs =>
    if ok x then
      let r := runSeq f ok xs
      (r.1, f x :: r.2)
    else (false, [f x])

/-- Stage: the optional chain-config dispatch-and-poll, then the final
    report (`SUCCESS: subnet Id ..., blockchain Id ...`). -/
def chainConfigStage (cfg : Flags) (env : Env) (sid bid : String) : ExecResult × List Event :=
  if cfg.chain_config_local_path ≠ "" then
    let ev := Event.sendCommand cfg.ssm_doc (instanceIds cfg) (install_chain_args cfg bid)
    if env.sendChainConfigOk then
      (ExecResult.success (some (sid, bid)),
       ev :: (instanceIds cfg).map (fun i => Event.pollResult i (env.pollChainConfig i)))
    else (ExecResult.failure .panic "send_command chain config", [ev])
  else (ExecResult.success (some (sid, bid)), [])

/-- Stage: `create_chain` dry pass, then the real, acceptance-checked pass
    whose blockchain id shadows the dry pass's binding and is the one used
    from here on. -/
def createChainStage (cfg : Flags) (env : Env) (sid : String) : ExecResult × List Event :=
  let ev1 := Event.createChain sid (vmIdOf cfg) cfg.chain_name true
  if env.dryChainOk then
    let ev2 := Event.createChain sid (vmIdOf cfg) cfg.chain_name false
    if env.realChainOk then
      let r := chainConfigStage cfg env sid env.realChainId
      (r.1, ev1 :: ev2 :: r.2)
    else (ExecResult.failure .panic "create_chain", [ev1, ev2])
  else (ExecResult.failure .panic "create_chain dry", [ev1])

/-- Stage: registering every node as a subnet validator, with period
    argument `staking_period_in_days - 1` (u64 subtraction). -/
def subnetValidatorsStage (cfg : Flags) (env : Env) (sid : String) : ExecResult × List Event :=
  let f := fun (n : String) =>
    Event.addSubnetValidator n sid 60 (u64_wrapping_sub cfg.staking_period_in_days 1)
  let r := runSeq f env.addSubnetValidatorOk (nodeIds cfg)
  if r.1 then
    let r2 := createChainStage cfg env sid
    (r2.1, r.2 ++ r2.2)
  else (ExecResult.failure .panic "add_subnet_validator", r.2)

/-- Stage: one SSM dispatch of the rendered install command to all
    instances, then one poll per instance.  The poll observes the target's
    terminal status (success, failure or timeout, per the dispatcher
    contract) and the source merely logs it before moving on. -/
def installDispatchStage (cfg : Flags) (env : Env) (sid : String) : ExecResult × List Event :=
  let ev := Event.sendCommand cfg.ssm_doc (instanceIds cfg) (install_subnet_args cfg sid)
  if env.sendInstallOk then
    let polls := (instanceIds cfg).map (fun i => Event.pollResult i (env.pollInstall i))
    let r := subnetValidatorsStage cfg env sid
    (r.1, ev :: (polls ++ r.2))
  else (ExecResult.failure .panic "send_command install", [ev])

/-- Stage: `create_subnet` dry pass, then the real, acceptance-checked
    pass; only the real pass's id (`created_subnet_id`) flows onward. -/
def createSubnetStage (cfg : Flags) (env : Env) : ExecResult × List Event :=
  if env.drySubnetOk then
    if env.realSubnetOk then
      let r := installDispatchStage cfg env env.realSubnetId
      (r.1, Event.createSubnet true :: Event.createSubnet false :: r.2)
    else (ExecResult.failure .panic "create_subnet", [Event.createSubnet true, Event.createSubnet false])
  else (ExecResult.failure .panic "create_subnet dry", [Event.createSubnet true])

/-- Stage: registering every node as a primary network validator with the
    requested staking period and the nAVAX stake amount (`as_u64` on the
    256-bit cast aborts when the amount does not fit u64). -/
def primaryValidatorsStage (cfg : Flags) (env : Env) : ExecResult × List Event :=
  let stake := cast_avax_to_xp_navax cfg.staking_amount_in_avax
  if stake < u64Bound then
    let f := fun (n : String) => Event.addValidator n stake 60 cfg.staking_period_in_days
    let r := runSeq f env.addValidatorOk (nodeIds cfg)
    if r.1 then
      let r2 := createSubnetStage cfg env
      (r2.1, r.2 ++ r2.2)
    else (ExecResult.failure .panic "add_validator", r.2)
  else (ExecResult.failure .panic "stake amount as_u64 overflow", [])

/-- Stage: the VM binary upload (unconditional), then the chain-config
    upload when a chain-config local path was given — whose existence
    check happens only here, after the VM binary upload. -/
def vmBinaryUploadStage (cfg : Flags) (env : Env) : ExecResult × List Event :=
  let ev := Event.putObject .vmBinary cfg.vm_binary_local_path cfg.s3_bucket (vm_binary_s3_key cfg)
  if env.putVmBinaryOk then
    if cfg.chain_config_local_path ≠ "" then
      if env.chainConfigExists then
        let ev2 := Event.putObject .chainConfig cfg.chain_config_local_path cfg.s3_bucket (chain_config_s3_key cfg)
        if env.putChainConfigOk then
          let r := primaryValidatorsStage cfg env
          (r.1, ev :: ev2 :: r.2)
        else (ExecResult.failure .panic "put_object chain_config_path", [ev, ev2])
      else
        (ExecResult.failure .invalidInput
          ("subnet chain config file '" ++ cfg.chain_config_local_path ++ "' not found"), [ev])
    else
      let r := primaryValidatorsStage cfg env
      (r.1, ev :: r.2)
  else (ExecResult.failure .panic "put_object vm_binary_path", [ev])

/-- Stage: the optional subnet-config upload — whose existence check
    happens only here, at staging time — then the VM binary upload. -/
def stageArtifactsStage (cfg : Flags) (env : Env) : ExecResult × List Event :=
  if cfg.subnet_config_local_path ≠ "" then
    if env.subnetConfigExists then
      let ev := Event.putObject .subnetConfig cfg.subnet_config_local_path cfg.s3_bucket (subnet_config_s3_key cfg)
      if env.putSubnetConfigOk then
        let r := vmBinaryUploadStage cfg env
        (r.1, ev :: r.2)
      else (ExecResult.failure .panic "put_object subnet_config_path", [ev])
    else
      (ExecResult.failure .invalidInput
        ("subnet config file '" ++ cfg.subnet_config_local_path ++ "' not found"), [])
  else vmBinaryUploadStage cfg env

/-- The `execute` entry point: the input checks (vm binary existence, the
    two flag-pair checks, genesis existence and readability), the VM id
    resolution, the read-only lookups (network id via RPC, then the wallet
    balance, then the AWS caller identity), the confirmation prompt (the
    decline option, index 0, is the default and returns `Ok` immediately),
    then the staged pipeline. -/
def lookupsStage (cfg : Flags) (env : Env) : ExecResult × List Event :=
  if ¬ env.networkIdOk then
    (ExecResult.failure .panic "get_network_id", [Event.getNetworkId])
  else if ¬ env.keyParseOk then
    (ExecResult.failure .otherErr "private key from_hex", [Event.getNetworkId])
  else if ¬ env.walletBuildOk then
    (ExecResult.failure .panic "wallet build", [Event.getNetworkId])
  else if ¬ env.balanceOk then
    (ExecResult.failure .panic "p-chain balance", [Event.getNetworkId, Event.getBalance])
  else if ¬ env.loadConfigOk then
    (ExecResult.failure .otherErr "aws load_config", [Event.getNetworkId, Event.getBalance])
  else if ¬ env.identityOk then
    (ExecResult.failure .panic "sts get_identity",
     [Event.getNetworkId, Event.getBalance, Event.getIdentity])
  else if ¬ cfg.skip_prompt ∧ env.promptSelection = 0 then
    (ExecResult.success none, [Event.getNetworkId, Event.getBalance, Event.getIdentity])
  else
    let r := stageArtifactsStage cfg env
    (r.1, Event.getNetworkId :: Event.getBalance :: Event.getIdentity :: r.2)

def execute (cfg : Flags) (env : Env) : ExecResult × List Event :=
  if ¬ env.vmBinaryExists then
    (ExecResult.failure .invalidInput
      ("vm binary file '" ++ cfg.vm_binary_local_path ++ "' not found"), [])
  else if cfg.subnet_config_local_path ≠ "" ∧ cfg.subnet_config_remote_dir = "" then
    (ExecResult.failure .invalidInput
      "subnet_config_local_path not empty but subnet_config_remote_dir empty", [])
  else if cfg.chain_config_local_path ≠ "" ∧ cfg.chain_config_remote_dir = "" then
    (ExecResult.failure .invalidInput
      "chain_config_local_path not empty but chain_config_remote_dir empty", [])
  else if ¬ env.chainGenesisExists then
    (ExecResult.failure .invalidInput
      ("chain genesis file '" ++ cfg.chain_genesis_path ++ "' not found"), [])
  else if ¬ env.genesisReadOk then
    (ExecResult.failure .otherErr ("failed to open " ++ cfg.chain_genesis_path), [])
  else lookupsStage cfg env

/-- The canonical event sequence of a fully successful chain-config phase. -/
def fullChainConfigTrace (cfg : Flags) (env : Env) (bid : String) : List Event :=
  if cfg.chain_config_local_path ≠ "" then
    Event.sendCommand cfg.ssm_doc (instanceIds cfg) (install_chain_args cfg bid)
      :: (instanceIds cfg).map (fun i => Event.pollResult i (env.pollChainConfig i))
  else []

/-- The canonical event sequence from chain creation on. -/
def fullCreateChainTrace (cfg : Flags) (env : Env) (sid : String) : List Event :=
  Event.createChain sid (vmIdOf cfg) cfg.chain_name true ::
  Event.createChain sid (vmIdOf cfg) cfg.chain_name false ::
  fullChainConfigTrace cfg env env.realChainId

/-- The canonical event sequence from subnet-validator registration on. -/
def fullSubnetValidatorsTrace (cfg : Flags) (env : Env) (sid : String) : List Event :=
  (nodeIds cfg).map
    (fun n => Event.addSubnetValidator n sid 60 (u64_wrapping_sub cfg.staking_period_in_days 1))
  ++ fullCreateChainTrace cfg env sid

/-- The canonical event sequence from the install dispatch on. -/
def fullDispatchTrace (cfg : Flags) (env : Env) (sid : String) : List Event :=
  Event.sendCommand cfg.ssm_doc (instanceIds cfg) (install_subnet_args cfg sid)
  :: ((instanceIds cfg).map (fun i => Event.pollResult i (env.pollInstall i))
      ++ fullSubnetValidatorsTrace cfg env sid)

/-- The canonical event sequence from subnet creation on. -/
def fullCreateSubnetTrace (cfg : Flags) (env : Env) : List Event :=
  Event.createSubnet true :: Event.createSubnet false ::
  fullDispatchTrace cfg env env.realSubnetId

/-- The canonical event sequence from primary-validator registration on. -/
def fullPrimaryTrace (cfg : Flags) (env : Env) : List Event :=
  (nodeIds cfg).map
    (fun n => Event.addValidator n (cast_avax_to_xp_navax cfg.staking_amount_in_avax) 60
      cfg.staking_period_in_days)
  ++ fullCreateSubnetTrace cfg env

/-- The canonical event sequence from the VM binary upload on. -/
def fullVmBinaryTrace (cfg : Flags) (env : Env) : List Event :=
  Event.putObject .vmBinary cfg.vm_binary_local_path cfg.s3_bucket (vm_binary_s3_key cfg)
  :: ((if cfg.chain_config_local_path ≠ "" then
        [Event.putObject .chainConfig cfg.chain_config_local_path cfg.s3_bucket
          (chain_config_s3_key cfg)]
      else [])
      ++ fullPrimaryTrace cfg env)

/-- The canonical event sequence from artifact staging on. -/
def fullStageArtifactsTrace (cfg : Flags) (env : Env) : List Event :=
  (if cfg.subnet_config_local_path ≠ "" then
    [Event.putObject .subnetConfig cfg.subnet_config_local_path cfg.s3_bucket
      (subnet_config_s3_key cfg)]
   else [])
  ++ fullVmBinaryTrace cfg env

/-- The canonical event sequence of one fully successful run: the fixed
    stage order of the orchestrator. -/
def fullTrace (cfg : Flags) (env : Env) : List Event :=
  Event.getNetworkId :: Event.getBalance :: Event.getIdentity ::
  fullStageArtifactsTrace cfg env

/-- `a` is an initial segment of `b`. -/
def IsTracePre (a b : List Event) : Prop := ∃ t, a ++ t = b

/-- Does the event create a subnet (dry or real)? -/
def isCreateSubnetEvent : Event → Bool
  | Event.createSubnet _ => true
  | _ => false

/-- Does the event create a chain (dry or real)? -/
def isCreateChainEvent : Event → Bool
  | Event.createChain _ _ _ _ => true
  | _ => false

/-- Is the event a remote-command dispatch? -/
def isSendEvent : Event → Bool
  | Event.sendCommand _ _ _ => true
  | _ => false

/-- A concrete request: the spec's end-to-end fixture (two nodes, no
    subnet/chain config files, staking period 15 days, amount 2000 AVAX,
    the spec's vm id, prompt skipped). -/
def baseCfg : Flags := {
  log_level := "info", skip_prompt := true, region := "us-west-2",
  s3_bucket := "my-bucket", s3_key_prefix := "pre/", ssm_doc := "doc",
  chain_rpc_url := "http://localhost:9650", key := "k",
  staking_period_in_days := 15, staking_amount_in_avax := 2000,
  subnet_config_local_path := "", subnet_config_remote_dir := "",
  vm_binary_local_path := "bin/vm", vm_binary_remote_dir := "/plugins",
  vm_id := "srEXiWaHuhNyGwPUi444Tu47ZEDwxTWrbQiuD7FmgSAQ6X7Dy",
  chain_name := "mychain", chain_genesis_path := "gen.json",
  chain_config_local_path := "", chain_config_remote_dir := "",
  avalanchego_config_remote_path := "/data/avalanchego.json",
  node_ids_to_instance_ids := [("n1", "i1"), ("n2", "i2")] }

/-- A fully cooperative environment for `baseCfg`: every file exists,
    every external call succeeds; the real subnet id is the spec's fixture
    subnet id, and the dry-pass ids differ from the real-pass ids. -/
def baseEnv : Env := {
  vmBinaryExists := true, chainGenesisExists := true, genesisReadOk := true,
  genesisBytes := [123, 125], subnetConfigExists := true, chainConfigExists := true,
  networkIdOk := true, networkId := 1, keyParseOk := true, walletBuildOk := true,
  balanceOk := true, balance := 300000000000000, loadConfigOk := true,
  identityOk := true, promptSelection := 1, putSubnetConfigOk := true,
  putVmBinaryOk := true, putChainConfigOk := true,
  addValidatorOk := fun _ => true,
  drySubnetOk := true, drySubnetId := "DRY-SUBNET-ID", realSubnetOk := true,
  realSubnetId := "2ebCneCbwthjQ1rYT41nhd7M76Hc6YmosMAQrTFhBq8qeqh6tt",
  sendInstallOk := true, pollInstall := fun _ => PollStatus.success,
  addSubnetValidatorOk := fun _ => true, dryChainOk := true,
  dryChainId := "DRY-CHAIN-ID", realChainOk := true, realChainId := "BID",
  sendChainConfigOk := true, pollChainConfig := fun _ => PollStatus.success }

/-- `baseCfg` with a subnet-config file whose name carries an extension,
    for checking the staged object keys. -/
def keyCfg : Flags :=
  { baseCfg with
    subnet_config_local_path := "configs/subnet-config.json",
    subnet_config_remote_dir := "/subnet-configs" }

/-- `baseCfg` with a chain-config file configured. -/
def chainCfgCfg : Flags :=
  { baseCfg with
    chain_config_local_path := "configs/chain-config.json",
    chain_config_remote_dir := "/chain-configs" }

theorem isTracePre_refl (a : List Event) : IsTracePre a a := ⟨[], List.append_nil a⟩

theorem isTracePre_cons (x : Event) {a b : List Event} (h : IsTracePre a b) :
    IsTracePre (x :: a) (x :: b) := by
  obtain ⟨t, ht⟩ := h
  exact ⟨t, by simp [ht]⟩

theorem isTracePre_append_left (t : List Event) {a b : List Event} (h : IsTracePre a b) :
    IsTracePre (t ++ a) (t ++ b) := by
  obtain ⟨s, hs⟩ := h
  exact ⟨s, by simp [hs]⟩

theorem isTracePre_extend (c : List Event) {a b : List Event} (h : IsTracePre a b) :
    IsTracePre a (b ++ c) := by
  obtain ⟨s, hs⟩ := h
  exact ⟨s ++ c, by simp [← hs]⟩

theorem mem_of_isTracePre {a b : List Event} (h : IsTracePre a b) {x : Event}
    (hx : x ∈ a) : x ∈ b := by
  obtain ⟨t, ht⟩ := h
  exact ht ▸ List.mem_append_left t hx

theorem runSeq_pre (f : α → Event) (ok : α → Bool) (xs : List α) :
    IsTracePre (runSeq f ok xs).2 (xs.map f) := by
  induction xs with
  | nil => exact isTracePre_refl _
  | cons x xs ih =>
    by_cases h : ok x
    · simpa [runSeq, h] using isTracePre_cons (f x) ih
    · exact ⟨xs.map f, by simp [runSeq, h]⟩

theorem runSeq_complete (f : α → Event) (ok : α → Bool) (xs : List α)
    (h : (runSeq f ok xs).1 = true) : (runSeq f ok xs).2 = xs.map f := by
  induction xs with
  | nil => rfl
  | cons x xs ih =>
    by_cases hx : ok x
    · simp only [runSeq, hx, if_true] at h ⊢
      simp [ih h]
    · simp [runSeq, hx] at h

theorem runSeq_all (f : α → Event) (ok : α → Bool) (xs : List α)
    (h : ∀ x ∈ xs, ok x = true) : (runSeq f ok xs).1 = true := by
  induction xs with
  | nil => rfl
  | cons x xs ih =>
    have hx := h x (List.mem_cons_self x xs)
    simp only [runSeq, hx, if_true]
    exact ih fun y hy => h y (List.mem_cons_of_mem x hy)

theorem chainConfigStage_pre (cfg : Flags) (env : Env) (sid bid : String) :
    IsTracePre (chainConfigStage cfg env sid bid).2 (fullChainConfigTrace cfg env bid) := by
  unfold chainConfigStage fullChainConfigTrace
  split_ifs with hp hs
  · exact isTracePre_refl _
  · exact ⟨_, rfl⟩
  · exact isTracePre_refl _

theorem chainConfigStage_success (cfg : Flags) (env : Env) (sid bid : String)
    (r : String × String)
    (h : (chainConfigStage cfg env sid bid).1 = ExecResult.success (some r)) :
    (chainConfigStage cfg env sid bid).2 = fullChainConfigTrace cfg env bid
      ∧ r = (sid, bid) := by
  unfold chainConfigStage at h
  unfold chainConfigStage fullChainConfigTrace
  split_ifs at h ⊢ with hp hs
  all_goals cases h
  all_goals exact ⟨rfl, rfl⟩

theorem chainConfigStage_complete (cfg : Flags) (env : Env) (sid bid : String)
    (hs : env.sendChainConfigOk = true) :
    (chainConfigStage cfg env sid bid).1 = ExecResult.success (some (sid, bid)) := by
  unfold chainConfigStage
  split_ifs <;> rfl

theorem createChainStage_pre (cfg : Flags) (env : Env) (sid : String) :
    IsTracePre (createChainStage cfg env sid).2 (fullCreateChainTrace cfg env sid) := by
  simp only [createChainStage, fullCreateChainTrace]
  split_ifs
  all_goals first
    | exact isTracePre_cons _ (isTracePre_cons _ (chainConfigStage_pre cfg env sid env.realChainId))
    | exact ⟨_, rfl⟩

theorem createChainStage_success (cfg : Flags) (env : Env) (sid : String)
    (r : String × String)
    (h : (createChainStage cfg env sid).1 = ExecResult.success (some r)) :
    (createChainStage cfg env sid).2 = fullCreateChainTrace cfg env sid
      ∧ r = (sid, env.realChainId) := by
  simp only [createChainStage, fullCreateChainTrace] at h ⊢
  split_ifs at h ⊢
  all_goals first
    | (obtain ⟨ht, hr⟩ := chainConfigStage_success cfg env sid env.realChainId r h
       exact ⟨by rw [← ht], hr⟩)
    | cases h

theorem createChainStage_complete (cfg : Flags) (env : Env) (sid : String)
    (h1 : env.dryChainOk = true) (h2 : env.realChainOk = true)
    (h3 : env.sendChainConfigOk = true) :
    (createChainStage cfg env sid).1 = ExecResult.success (some (sid, env.realChainId)) := by
  simp only [createChainStage]
  rw [if_pos h1, if_pos h2]
  exact chainConfigStage_complete cfg env sid env.realChainId h3

theorem subnetValidatorsStage_pre (cfg : Flags) (env : Env) (sid : String) :
    IsTracePre (subnetValidatorsStage cfg env sid).2 (fullSubnetValidatorsTrace cfg env sid) := by
  simp only [subnetValidatorsStage, fullSubnetValidatorsTrace]
  split_ifs with hseq
  · rw [runSeq_complete _ _ _ hseq]
    exact isTracePre_append_left _ (createChainStage_pre cfg env sid)
  · exact isTracePre_extend _ (runSeq_pre _ _ _)

theorem subnetValidatorsStage_success (cfg : Flags) (env : Env) (sid : String)
    (r : String × String)
    (h : (subnetValidatorsStage cfg env sid).1 = ExecResult.success (some r)) :
    (subnetValidatorsStage cfg env sid).2 = fullSubnetValidatorsTrace cfg env sid
      ∧ r = (sid, env.realChainId) := by
  simp only [subnetValidatorsStage, fullSubnetValidatorsTrace] at h ⊢
  split_ifs at h ⊢ with hseq
  all_goals
    obtain ⟨ht, hr⟩ := createChainStage_success cfg env sid r h
    exact ⟨by rw [runSeq_complete _ _ _ hseq, ht], hr⟩

theorem subnetValidatorsStage_complete (cfg : Flags) (env : Env) (sid : String)
    (hall : ∀ n, env.addSubnetValidatorOk n = true)
    (h1 : env.dryChainOk = true) (h2 : env.realChainOk = true)
    (h3 : env.sendChainConfigOk = true) :
    (subnetValidatorsStage cfg env sid).1 = ExecResult.success (some (sid, env.realChainId)) := by
  simp only [subnetValidatorsStage]
  rw [if_pos (runSeq_all _ _ _ fun x _ => hall x)]
  exact createChainStage_complete cfg env sid h1 h2 h3

theorem installDispatchStage_pre (cfg : Flags) (env : Env) (sid : String) :
    IsTracePre (installDispatchStage cfg env sid).2 (fullDispatchTrace cfg env sid) := by
  simp only [installDispatchStage, fullDispatchTrace]
  split_ifs
  · exact isTracePre_cons _ (isTracePre_append_left _ (subnetValidatorsStage_pre cfg env sid))
  · exact ⟨_, rfl⟩

theorem installDispatchStage_success (cfg : Flags) (env : Env) (sid : String)
    (r : String × String)
    (h : (installDispatchStage cfg env sid).1 = ExecResult.success (some r)) :
    (installDispatchStage cfg env sid).2 = fullDispatchTrace cfg env sid
      ∧ r = (sid, env.realChainId) := by
  simp only [installDispatchStage, fullDispatchTrace] at h ⊢
  split_ifs at h ⊢
  all_goals
    obtain ⟨ht, hr⟩ := subnetValidatorsStage_success cfg env sid r h
    exact ⟨by rw [ht], hr⟩

theorem installDispatchStage_complete (cfg : Flags) (env : Env) (sid : String)
    (hsend : env.sendInstallOk = true)
    (hall : ∀ n, env.addSubnetValidatorOk n = true)
    (h1 : env.dryChainOk = true) (h2 : env.realChainOk = true)
    (h3 : env.sendChainConfigOk = true) :
    (installDispatchStage cfg env sid).1 = ExecResult.success (some (sid, env.realChainId)) := by
  simp only [installDispatchStage]
  rw [if_pos hsend]
  exact subnetValidatorsStage_complete cfg env sid hall h1 h2 h3

theorem createSubnetStage_pre (cfg : Flags) (env : Env) :
    IsTracePre (createSubnetStage cfg env).2 (fullCreateSubnetTrace cfg env) := by
  simp only [createSubnetStage, fullCreateSubnetTrace]
  split_ifs
  all_goals first
    | exact isTracePre_cons _ (isTracePre_cons _ (installDispatchStage_pre cfg env env.realSubnetId))
    | exact ⟨_, rfl⟩

theorem createSubnetStage_success (cfg : Flags) (env : Env) (r : String × String)
    (h : (createSubnetStage cfg env).1 = ExecResult.success (some r)) :
    (createSubnetStage cfg env).2 = fullCreateSubnetTrace cfg env
      ∧ r = (env.realSubnetId, env.realChainId) := by
  simp only [createSubnetStage, fullCreateSubnetTrace] at h ⊢
  split_ifs at h ⊢
  all_goals first
    | (obtain ⟨ht, hr⟩ := installDispatchStage_success cfg env env.realSubnetId r h
       exact ⟨by rw [ht], hr⟩)
    | cases h

theorem createSubnetStage_complete (cfg : Flags) (env : Env)
    (hds : env.drySubnetOk = true) (hrs : env.realSubnetOk = true)
    (hsend : env.sendInstallOk = true)
    (hall : ∀ n, env.addSubnetValidatorOk n = true)
    (h1 : env.dryChainOk = true) (h2 : env.realChainOk = true)
    (h3 : env.sendChainConfigOk = true) :
    (createSubnetStage cfg env).1
      = ExecResult.success (some (env.realSubnetId, env.realChainId)) := by
  simp only [createSubnetStage]
  rw [if_pos hds, if_pos hrs]
  exact installDispatchStage_complete cfg env env.realSubnetId hsend hall h1 h2 h3

theorem primaryValidatorsStage_pre (cfg : Flags) (env : Env) :
    IsTracePre (primaryValidatorsStage cfg env).2 (fullPrimaryTrace cfg env) := by
  simp only [primaryValidatorsStage, fullPrimaryTrace]
  split_ifs with h1 h2
  · rw [runSeq_complete _ _ _ h2]
    exact isTracePre_append_left _ (createSubnetStage_pre cfg env)
  · exact isTracePre_extend _ (runSeq_pre _ _ _)
  · exact ⟨_, rfl⟩

theorem primaryValidatorsStage_success (cfg : Flags) (env : Env) (r : String × String)
    (h : (primaryValidatorsStage cfg env).1 = ExecResult.success (some r)) :
    (primaryValidatorsStage cfg env).2 = fullPrimaryTrace cfg env
      ∧ r = (env.realSubnetId, env.realChainId) := by
  simp only [primaryValidatorsStage, fullPrimaryTrace] at h ⊢
  split_ifs at h ⊢ with h1 h2
  all_goals
    obtain ⟨ht, hr⟩ := createSubnetStage_success cfg env r h
    exact ⟨by rw [runSeq_complete _ _ _ h2, ht], hr⟩

theorem primaryValidatorsStage_complete (cfg : Flags) (env : Env)
    (hstake : cast_avax_to_xp_navax cfg.staking_amount_in_avax < u64Bound)
    (hav : ∀ n, env.addValidatorOk n = true)
    (hds : env.drySubnetOk = true) (hrs : env.realSubnetOk = true)
    (hsend : env.sendInstallOk = true)
    (hall : ∀ n, env.addSubnetValidatorOk n = true)
    (h1 : env.dryChainOk = true) (h2 : env.realChainOk = true)
    (h3 : env.sendChainConfigOk = true) :
    (primaryValidatorsStage cfg env).1
      = ExecResult.success (some (env.realSubnetId, env.realChainId)) := by
  simp only [primaryValidatorsStage]
  rw [if_pos hstake, if_pos (runSeq_all _ _ _ fun x _ => hav x)]
  exact createSubnetStage_complete cfg env hds hrs hsend hall h1 h2 h3

theorem vmBinaryUploadStage_pre (cfg : Flags) (env : Env) :
    IsTracePre (vmBinaryUploadStage cfg env).2 (fullVmBinaryTrace cfg env) := by
  simp only [vmBinaryUploadStage, fullVmBinaryTrace]
  split_ifs
  all_goals first
    | exact isTracePre_cons _ (isTracePre_cons _ (primaryValidatorsStage_pre cfg env))
    | exact isTracePre_cons _ (primaryValidatorsStage_pre cfg env)
    | exact ⟨_, rfl⟩

theorem vmBinaryUploadStage_success (cfg : Flags) (env : Env) (r : String × String)
    (h : (vmBinaryUploadStage cfg env).1 = ExecResult.success (some r)) :
    (vmBinaryUploadStage cfg env).2 = fullVmBinaryTrace cfg env
      ∧ r = (env.realSubnetId, env.realChainId) := by
  simp only [vmBinaryUploadStage, fullVmBinaryTrace] at h ⊢
  split_ifs at h ⊢
  all_goals first
    | (obtain ⟨ht, hr⟩ := primaryValidatorsStage_success cfg env r h
       exact ⟨by simp [ht], hr⟩)
    | cases h

theorem vmBinaryUploadStage_complete (cfg : Flags) (env : Env)
    (hvmput : env.putVmBinaryOk = true)
    (hcc : cfg.chain_config_local_path ≠ "" →
      env.chainConfigExists = true ∧ env.putChainConfigOk = true)
    (hstake : cast_avax_to_xp_navax cfg.staking_amount_in_avax < u64Bound)
    (hav : ∀ n, env.addValidatorOk n = true)
    (hds : env.drySubnetOk = true) (hrs : env.realSubnetOk = true)
    (hsend : env.sendInstallOk = true)
    (hall : ∀ n, env.addSubnetValidatorOk n = true)
    (h1 : env.dryChainOk = true) (h2 : env.realChainOk = true)
    (h3 : env.sendChainConfigOk = true) :
    (vmBinaryUploadStage cfg env).1
      = ExecResult.success (some (env.realSubnetId, env.realChainId)) := by
  simp only [vmBinaryUploadStage]
  rw [if_pos hvmput]
  by_cases hp : cfg.chain_config_local_path = ""
  · rw [if_neg (by simp [hp])]
    exact primaryValidatorsStage_complete cfg env hstake hav hds hrs hsend hall h1 h2 h3
  · obtain ⟨hex, hput⟩ := hcc hp
    rw [if_pos hp, if_pos hex, if_pos hput]
    exact primaryValidatorsStage_complete cfg env hstake hav hds hrs hsend hall h1 h2 h3

theorem stageArtifactsStage_pre (cfg : Flags) (env : Env) :
    IsTracePre (stageArtifactsStage cfg env).2 (fullStageArtifactsTrace cfg env) := by
  simp only [stageArtifactsStage, fullStageArtifactsTrace]
  split_ifs
  all_goals first
    | exact isTracePre_cons _ (vmBinaryUploadStage_pre cfg env)
    | exact vmBinaryUploadStage_pre cfg env
    | exact ⟨_, rfl⟩

theorem stageArtifactsStage_success (cfg : Flags) (env : Env) (r : String × String)
    (h : (stageArtifactsStage cfg env).1 = ExecResult.success (some r)) :
    (stageArtifactsStage cfg env).2 = fullStageArtifactsTrace cfg env
      ∧ r = (env.realSubnetId, env.realChainId) := by
  simp only [stageArtifactsStage, fullStageArtifactsTrace] at h ⊢
  split_ifs at h ⊢
  all_goals first
    | (obtain ⟨ht, hr⟩ := vmBinaryUploadStage_success cfg env r h
       exact ⟨by simp [ht], hr⟩)
    | cases h

theorem stageArtifactsStage_complete (cfg : Flags) (env : Env)
    (hsc : cfg.subnet_config_local_path ≠ "" →
      env.subnetConfigExists = true ∧ env.putSubnetConfigOk = true)
    (hvmput : env.putVmBinaryOk = true)
    (hcc : cfg.chain_config_local_path ≠ "" →
      env.chainConfigExists = true ∧ env.putChainConfigOk = true)
    (hstake : cast_avax_to_xp_navax cfg.staking_amount_in_avax < u64Bound)
    (hav : ∀ n, env.addValidatorOk n = true)
    (hds : env.drySubnetOk = true) (hrs : env.realSubnetOk = true)
    (hsend : env.sendInstallOk = true)
    (hall : ∀ n, env.addSubnetValidatorOk n = true)
    (h1 : env.dryChainOk = true) (h2 : env.realChainOk = true)
    (h3 : env.sendChainConfigOk = true) :
    (stageArtifactsStage cfg env).1
      = ExecResult.success (some (env.realSubnetId, env.realChainId)) := by
  simp only [stageArtifactsStage]
  by_cases hp : cfg.subnet_config_local_path = ""
  · rw [if_neg (by simp [hp])]
    exact vmBinaryUploadStage_complete cfg env hvmput hcc hstake hav hds hrs hsend hall h1 h2 h3
  · obtain ⟨hex, hput⟩ := hsc hp
    rw [if_pos hp, if_pos hex, if_pos hput]
    exact vmBinaryUploadStage_complete cfg env hvmput hcc hstake hav hds hrs hsend hall h1 h2 h3

theorem lookupsStage_pre (cfg : Flags) (env : Env) :
    IsTracePre (lookupsStage cfg env).2 (fullTrace cfg env) := by
  unfold lookupsStage fullTrace
  split_ifs
  all_goals first
    | exact isTracePre_cons _ (isTracePre_cons _ (isTracePre_cons _
        (stageArtifactsStage_pre cfg env)))
    | exact ⟨_, rfl⟩

theorem lookupsStage_success (cfg : Flags) (env : Env) (r : String × String)
    (h : (lookupsStage cfg env).1 = ExecResult.success (some r)) :
    (lookupsStage cfg env).2 = fullTrace cfg env ∧ r = (env.realSubnetId, env.realChainId) := by
  unfold lookupsStage at h
  unfold lookupsStage fullTrace
  split_ifs at h ⊢
  all_goals first
    | (have hh : (stageArtifactsStage cfg env).1 = ExecResult.success (some r) := h
       obtain ⟨ht, hr⟩ := stageArtifactsStage_success cfg env r hh
       exact ⟨by simp [ht], hr⟩)
    | cases h
    | simp at h

theorem execute_pre (cfg : Flags) (env : Env) :
    IsTracePre (execute cfg env).2 (fullTrace cfg env) := by
  unfold execute
  split_ifs
  all_goals first
    | exact lookupsStage_pre cfg env
    | exact ⟨_, rfl⟩

theorem execute_success (cfg : Flags) (env : Env) (r : String × String)
    (h : (execute cfg env).1 = ExecResult.success (some r)) :
    (execute cfg env).2 = fullTrace cfg env ∧ r = (env.realSubnetId, env.realChainId) := by
  unfold execute at h
  unfold execute
  split_ifs at h ⊢
  all_goals first
    | exact lookupsStage_success cfg env r h
    | cases h

theorem execute_complete (cfg : Flags) (env : Env)
    (hvm : env.vmBinaryExists = true)
    (hscd : ¬ (cfg.subnet_config_local_path ≠ "" ∧ cfg.subnet_config_remote_dir = ""))
    (hccd : ¬ (cfg.chain_config_local_path ≠ "" ∧ cfg.chain_config_remote_dir = ""))
    (hg : env.chainGenesisExists = true) (hgr : env.genesisReadOk = true)
    (hnet : env.networkIdOk = true) (hkey : env.keyParseOk = true)
    (hw : env.walletBuildOk = true) (hb : env.balanceOk = true)
    (hlc : env.loadConfigOk = true) (hid : env.identityOk = true)
    (hpr : ¬ (¬ cfg.skip_prompt = true ∧ env.promptSelection = 0))
    (hsc : cfg.subnet_config_local_path ≠ "" →
      env.subnetConfigExists = true ∧ env.putSubnetConfigOk = true)
    (hvmput : env.putVmBinaryOk = true)
    (hcc : cfg.chain_config_local_path ≠ "" →
      env.chainConfigExists = true ∧ env.putChainConfigOk = true)
    (hstake : cast_avax_to_xp_navax cfg.staking_amount_in_avax < u64Bound)
    (hav : ∀ n, env.addValidatorOk n = true)
    (hds : env.drySubnetOk = true) (hrs : env.realSubnetOk = true)
    (hsend : env.sendInstallOk = true)
    (hall : ∀ n, env.addSubnetValidatorOk n = true)
    (h1 : env.dryChainOk = true) (h2 : env.realChainOk = true)
    (h3 : env.sendChainConfigOk = true) :
    (execute cfg env).1 = ExecResult.success (some (env.realSubnetId, env.realChainId)) := by
  unfold execute lookupsStage
  rw [if_neg (by simp [hvm]), if_neg hscd, if_neg hccd, if_neg (by simp [hg]),
    if_neg (by simp [hgr]), if_neg (by simp [hnet]), if_neg (by simp [hkey]),
    if_neg (by simp [hw]), if_neg (by simp [hb]), if_neg (by simp [hlc]),
    if_neg (by simp [hid]), if_neg hpr]
  exact stageArtifactsStage_complete cfg env hsc hvmput hcc hstake hav hds hrs hsend hall h1 h2 h3

theorem addValidator_mem_fullTrace (cfg : Flags) (env : Env) {n : String} {st o d : Nat}
    (h : Event.addValidator n st o d ∈ fullTrace cfg env) :
    st = cast_avax_to_xp_navax cfg.staking_amount_in_avax ∧ o = 60
      ∧ d = cfg.staking_period_in_days := by
  by_cases hsc : cfg.subnet_config_local_path = "" <;>
    by_cases hcc : cfg.chain_config_local_path = "" <;>
    simp [fullTrace, fullStageArtifactsTrace, fullVmBinaryTrace, fullPrimaryTrace,
      fullCreateSubnetTrace, fullDispatchTrace, fullSubnetValidatorsTrace,
      fullCreateChainTrace, fullChainConfigTrace, hsc, hcc] at h <;>
    (obtain ⟨a, _, _, h1, h2, h3⟩ := h; exact ⟨h1.symm, h2.symm, h3.symm⟩)

theorem addSubnetValidator_mem_fullTrace (cfg : Flags) (env : Env) {n s : String} {o d : Nat}
    (h : Event.addSubnetValidator n s o d ∈ fullTrace cfg env) :
    s = env.realSubnetId ∧ o = 60
      ∧ d = u64_wrapping_sub cfg.staking_period_in_days 1 := by
  by_cases hsc : cfg.subnet_config_local_path = "" <;>
    by_cases hcc : cfg.chain_config_local_path = "" <;>
    simp [fullTrace, fullStageArtifactsTrace, fullVmBinaryTrace, fullPrimaryTrace,
      fullCreateSubnetTrace, fullDispatchTrace, fullSubnetValidatorsTrace,
      fullCreateChainTrace, fullChainConfigTrace, hsc, hcc] at h <;>
    (obtain ⟨a, _, _, h1, h2, h3⟩ := h; exact ⟨h1.symm, h2.symm, h3.symm⟩)

theorem putObject_mem_fullTrace (cfg : Flags) (env : Env) {k : ArtifactKind}
    {p b key : String} (h : Event.putObject k p b key ∈ fullTrace cfg env) :
    b = cfg.s3_bucket ∧
    ((k = ArtifactKind.subnetConfig ∧ p = cfg.subnet_config_local_path
        ∧ key = subnet_config_s3_key cfg)
      ∨ (k = ArtifactKind.vmBinary ∧ p = cfg.vm_binary_local_path
        ∧ key = vm_binary_s3_key cfg)
      ∨ (k = ArtifactKind.chainConfig ∧ p = cfg.chain_config_local_path
        ∧ key = chain_config_s3_key cfg)) := by
  by_cases hsc : cfg.subnet_config_local_path = "" <;>
    by_cases hcc : cfg.chain_config_local_path = "" <;>
    simp [fullTrace, fullStageArtifactsTrace, fullVmBinaryTrace, fullPrimaryTrace,
      fullCreateSubnetTrace, fullDispatchTrace, fullSubnetValidatorsTrace,
      fullCreateChainTrace, fullChainConfigTrace, hsc, hcc] at h <;>
    tauto

theorem sendCommand_mem_fullTrace (cfg : Flags) (env : Env) {doc args : String}
    {tgts : List String} (h : Event.sendCommand doc tgts args ∈ fullTrace cfg env) :
    doc = cfg.ssm_doc ∧ tgts = instanceIds cfg ∧
      (args = install_subnet_args cfg env.realSubnetId
        ∨ args = install_chain_args cfg env.realChainId) := by
  by_cases hsc : cfg.subnet_config_local_path = "" <;>
    by_cases hcc : cfg.chain_config_local_path = "" <;>
    simp [fullTrace, fullStageArtifactsTrace, fullVmBinaryTrace, fullPrimaryTrace,
      fullCreateSubnetTrace, fullDispatchTrace, fullSubnetValidatorsTrace,
      fullCreateChainTrace, fullChainConfigTrace, hsc, hcc] at h <;>
    tauto

theorem pollInstall_mem_fullTrace (cfg : Flags) (env : Env) {i : String}
    (hi : i ∈ instanceIds cfg) :
    Event.pollResult i (env.pollInstall i) ∈ fullTrace cfg env := by
  by_cases hsc : cfg.subnet_config_local_path = "" <;>
    by_cases hcc : cfg.chain_config_local_path = "" <;>
    simp [fullTrace, fullStageArtifactsTrace, fullVmBinaryTrace, fullPrimaryTrace,
      fullCreateSubnetTrace, fullDispatchTrace, fullSubnetValidatorsTrace,
      fullCreateChainTrace, fullChainConfigTrace, hsc, hcc] <;>
    first
      | exact ⟨i, hi, rfl, rfl⟩
      | exact Or.inl ⟨i, hi, rfl, rfl⟩

theorem filter_map_eq_nil {p : Event → Bool} {f : α → Event}
    (hf : ∀ a, p (f a) = false) (l : List α) : (l.map f).filter p = [] := by
  induction l with
  | nil => rfl
  | cons x xs ih => simp [hf, ih]

theorem filter_cs_map_addValidator (st o d : Nat) (l : List String) :
    (l.map (fun n => Event.addValidator n st o d)).filter isCreateSubnetEvent = [] :=
  filter_map_eq_nil (fun _ => rfl) l

theorem filter_cs_map_poll (g : String → PollStatus) (l : List String) :
    (l.map (fun i => Event.pollResult i (g i))).filter isCreateSubnetEvent = [] :=
  filter_map_eq_nil (fun _ => rfl) l

theorem filter_cs_map_addSubnetValidator (s : String) (o d : Nat) (l : List String) :
    (l.map (fun n => Event.addSubnetValidator n s o d)).filter isCreateSubnetEvent = [] :=
  filter_map_eq_nil (fun _ => rfl) l

theorem filter_cc_map_addValidator (st o d : Nat) (l : List String) :
    (l.map (fun n => Event.addValidator n st o d)).filter isCreateChainEvent = [] :=
  filter_map_eq_nil (fun _ => rfl) l

theorem filter_cc_map_poll (g : String → PollStatus) (l : List String) :
    (l.map (fun i => Event.pollResult i (g i))).filter isCreateChainEvent = [] :=
  filter_map_eq_nil (fun _ => rfl) l

theorem filter_cc_map_addSubnetValidator (s : String) (o d : Nat) (l : List String) :
    (l.map (fun n => Event.addSubnetValidator n s o d)).filter isCreateChainEvent = [] :=
  filter_map_eq_nil (fun _ => rfl) l

theorem filter_createSubnet_fullTrace (cfg : Flags) (env : Env) :
    (fullTrace cfg env).filter isCreateSubnetEvent
      = [Event.createSubnet true, Event.createSubnet false] := by
  by_cases hsc : cfg.subnet_config_local_path = "" <;>
    by_cases hcc : cfg.chain_config_local_path = "" <;>
    simp [fullTrace, fullStageArtifactsTrace, fullVmBinaryTrace, fullPrimaryTrace,
      fullCreateSubnetTrace, fullDispatchTrace, fullSubnetValidatorsTrace,
      fullCreateChainTrace, fullChainConfigTrace, hsc, hcc, isCreateSubnetEvent,
      List.filter_append, filter_cs_map_addValidator, filter_cs_map_poll,
      filter_cs_map_addSubnetValidator]

theorem filter_createChain_fullTrace (cfg : Flags) (env : Env) :
    (fullTrace cfg env).filter isCreateChainEvent
      = [Event.createChain env.realSubnetId (vmIdOf cfg) cfg.chain_name true,
         Event.createChain env.realSubnetId (vmIdOf cfg) cfg.chain_name false] := by
  by_cases hsc : cfg.subnet_config_local_path = "" <;>
    by_cases hcc : cfg.chain_config_local_path = "" <;>
    simp [fullTrace, fullStageArtifactsTrace, fullVmBinaryTrace, fullPrimaryTrace,
      fullCreateSubnetTrace, fullDispatchTrace, fullSubnetValidatorsTrace,
      fullCreateChainTrace, fullChainConfigTrace, hsc, hcc, isCreateChainEvent,
      List.filter_append, filter_cc_map_addValidator, filter_cc_map_poll,
      filter_cc_map_addSubnetValidator]

theorem sendInstall_mem_fullTrace (cfg : Flags) (env : Env) :
    Event.sendCommand cfg.ssm_doc (instanceIds cfg)
      (install_subnet_args cfg env.realSubnetId) ∈ fullTrace cfg env := by
  by_cases hsc : cfg.subnet_config_local_path = "" <;>
    by_cases hcc : cfg.chain_config_local_path = "" <;>
    simp [fullTrace, fullStageArtifactsTrace, fullVmBinaryTrace, fullPrimaryTrace,
      fullCreateSubnetTrace, fullDispatchTrace, fullSubnetValidatorsTrace,
      fullCreateChainTrace, fullChainConfigTrace, hsc, hcc]

theorem u64_wrapping_sub_one {d : Nat} (h1 : 1 ≤ d) (h2 : d < u64Bound) :
    u64_wrapping_sub d 1 = d - 1 := by
  have hb : u64Bound = 18446744073709551616 := by norm_num [u64Bound]
  unfold u64_wrapping_sub
  rw [hb] at h2 ⊢
  omega

theorem insertEntry_keys_nodup (m : List (String × String)) (k v : String)
    (h : (m.map Prod.fst).Nodup) : ((insertEntry m k v).map Prod.fst).Nodup := by
  unfold insertEntry
  split_ifs with hmem
  · have hmap : (m.map fun p => if p.1 = k then (k, v) else p).map Prod.fst
        = m.map Prod.fst := by
      rw [List.map_map]
      refine List.map_congr_left fun p _ => ?_
      by_cases hp : p.1 = k
      · simp [hp]
      · simp [hp]
    rw [hmap]
    exact h
  · simp only [List.any_eq_true, decide_eq_true_eq, not_exists, not_and] at hmem
    rw [List.map_append]
    simp only [List.map_cons, List.map_nil, List.nodup_append]
    refine ⟨h, List.nodup_singleton k, ?_⟩
    intro a ha hb
    simp only [List.mem_singleton] at hb
    obtain ⟨p, hp, rfl⟩ := List.mem_map.mp ha
    exact hmem p hp (hb ▸ rfl)

theorem node_map_keys_nodup_aux (entries acc : List (String × String))
    (hacc : (acc.map Prod.fst).Nodup) :
    ((entries.foldl (fun m kv => insertEntry m kv.1 kv.2) acc).map Prod.fst).Nodup := by
  induction entries generalizing acc with
  | nil => exact hacc
  | cons e es ih =>
    exact ih (insertEntry acc e.1 e.2) (insertEntry_keys_nodup acc e.1 e.2 hacc)

theorem node_map_keys_nodup (entries : List (String × String)) :
    ((node_map_from_entries entries).map Prod.fst).Nodup :=
  node_map_keys_nodup_aux entries [] List.nodup_nil

theorem execute_reaches_staging (cfg : Flags) (env : Env)
    (hvm : env.vmBinaryExists = true)
    (hscd : ¬ (cfg.subnet_config_local_path ≠ "" ∧ cfg.subnet_config_remote_dir = ""))
    (hccd : ¬ (cfg.chain_config_local_path ≠ "" ∧ cfg.chain_config_remote_dir = ""))
    (hg : env.chainGenesisExists = true) (hgr : env.genesisReadOk = true)
    (hnet : env.networkIdOk = true) (hkey : env.keyParseOk = true)
    (hw : env.walletBuildOk = true) (hb : env.balanceOk = true)
    (hlc : env.loadConfigOk = true) (hid : env.identityOk = true)
    (hpr : ¬ (¬ cfg.skip_prompt = true ∧ env.promptSelection = 0)) :
    execute cfg env = ((stageArtifactsStage cfg env).1,
      Event.getNetworkId :: Event.getBalance :: Event.getIdentity ::
        (stageArtifactsStage cfg env).2) := by
  unfold execute lookupsStage
  rw [if_neg (by simp [hvm]), if_neg hscd, if_neg hccd, if_neg (by simp [hg]),
    if_neg (by simp [hgr]), if_neg (by simp [hnet]), if_neg (by simp [hkey]),
    if_neg (by simp [hw]), if_neg (by simp [hb]), if_neg (by simp [hlc]),
    if_neg (by simp [hid]), if_neg hpr]

theorem stageArtifactsStage_subnet_missing (cfg : Flags) (env : Env)
    (hp : cfg.subnet_config_local_path ≠ "") (hex : env.subnetConfigExists = false) :
    stageArtifactsStage cfg env
      = (ExecResult.failure .invalidInput
          ("subnet config file '" ++ cfg.subnet_config_local_path ++ "' not found"), []) := by
  unfold stageArtifactsStage
  rw [if_pos hp, if_neg (by simp [hex])]

theorem stageArtifactsStage_chain_missing (cfg : Flags) (env : Env)
    (hsc : cfg.subnet_config_local_path = "")
    (hvmput : env.putVmBinaryOk = true)
    (hp : cfg.chain_config_local_path ≠ "") (hex : env.chainConfigExists = false) :
    stageArtifactsStage cfg env
      = (ExecResult.failure .invalidInput
          ("subnet chain config file '" ++ cfg.chain_config_local_path ++ "' not found"),
         [Event.putObject .vmBinary cfg.vm_binary_local_path cfg.s3_bucket
           (vm_binary_s3_key cfg)]) := by
  unfold stageArtifactsStage vmBinaryUploadStage
  rw [if_neg (by simp [hsc]), if_pos hvmput, if_pos hp, if_neg (by simp [hex])]

/-- C1: for every requested staking period d > 1 (d a u64), every
    primary-validator registration issued by a run carries the fixed 60-day
    start offset and duration d, and every subnet-validator registration
    the same 60-day offset and duration d - 1; consequently, for the same
    issuance time, the subnet-validator validation period end is exactly
    one day (86400 seconds) earlier than the primary-validator period end. -/
theorem C1_subnet_period_one_day_earlier (cfg : Flags) (env : Env)
    (h1 : 1 < cfg.staking_period_in_days) (h2 : cfg.staking_period_in_days < u64Bound) :
    (∀ n st o d, Event.addValidator n st o d ∈ (execute cfg env).2 →
      o = 60 ∧ d = cfg.staking_period_in_days) ∧
    (∀ n s o d, Event.addSubnetValidator n s o d ∈ (execute cfg env).2 →
      o = 60 ∧ d + 1 = cfg.staking_period_in_days ∧
      ∀ now, validate_period_end now 60 d + 86400
        = validate_period_end now 60 cfg.staking_period_in_days) := by
  constructor
  · intro n st o d hmem
    have hc := addValidator_mem_fullTrace cfg env
      (mem_of_isTracePre (execute_pre cfg env) hmem)
    exact ⟨hc.2.1, hc.2.2⟩
  · intro n s o d hmem
    obtain ⟨hs, ho, hd⟩ := addSubnetValidator_mem_fullTrace cfg env
      (mem_of_isTracePre (execute_pre cfg env) hmem)
    rw [u64_wrapping_sub_one (Nat.one_le_of_lt h1) h2] at hd
    subst hd
    refine ⟨ho, by omega, fun now => ?_⟩
    unfold validate_period_end
    omega

/-- C1 witness: in the concrete base run (staking period 15 days), node
    n1's subnet-validator registration carries offset 60 and period 14. -/
theorem C1_subnet_period_one_day_earlier_witness :
    (60 : Nat) = 60 ∧ 14 + 1 = baseCfg.staking_period_in_days ∧
    ∀ now, validate_period_end now 60 14 + 86400
      = validate_period_end now 60 baseCfg.staking_period_in_days :=
  (C1_subnet_period_one_day_earlier baseCfg baseEnv (by decide) (by decide)).2
    "n1" "2ebCneCbwthjQ1rYT41nhd7M76Hc6YmosMAQrTFhBq8qeqh6tt" 60 14 (by decide)

/-- C2: every run's event trace is an initial segment of the canonical
    fixed stage sequence (lookups, artifact staging, primary-validator
    registrations for every node, create-subnet dry then real, the install
    dispatch, one poll per target, subnet-validator registrations for
    every node, create-chain dry then real, and — exactly when a
    chain-config local path is present — the chain-config dispatch and its
    per-target polls); so stages run in that order, none is re-entered,
    and a stage failure cuts off every later stage.  A run that returns
    the success report executed the canonical sequence in full. -/
theorem C2_stage_order (cfg : Flags) (env : Env) :
    IsTracePre (execute cfg env).2 (fullTrace cfg env) ∧
    (∀ r, (execute cfg env).1 = ExecResult.success (some r) →
      (execute cfg env).2 = fullTrace cfg env) :=
  ⟨execute_pre cfg env, fun r h => (execute_success cfg env r h).1⟩

/-- C2 witness: the concrete base run succeeds and its trace is the full
    canonical sequence. -/
theorem C2_stage_order_witness :
    (execute baseCfg baseEnv).2 = fullTrace baseCfg baseEnv :=
  (C2_stage_order baseCfg baseEnv).2
    ("2ebCneCbwthjQ1rYT41nhd7M76Hc6YmosMAQrTFhBq8qeqh6tt", "BID") (by decide)

/-- C3: create-subnet and create-chain are each issued exactly twice, dry
    pass first, then the real pass; the ids the dry passes return are
    observationally irrelevant (changing them changes nothing about the
    run), and every downstream use — the subnet id in the install command,
    the subnet-validator registrations and chain creation, and the subnet
    and blockchain ids of the final report — is the real pass's id. -/
theorem C3_dry_then_real (cfg : Flags) (env : Env) :
    (∀ x y, execute cfg { env with drySubnetId := x, dryChainId := y }
      = execute cfg env) ∧
    (∀ r, (execute cfg env).1 = ExecResult.success (some r) →
      r = (env.realSubnetId, env.realChainId) ∧
      (execute cfg env).2.filter isCreateSubnetEvent
        = [Event.createSubnet true, Event.createSubnet false] ∧
      (execute cfg env).2.filter isCreateChainEvent
        = [Event.createChain env.realSubnetId (vmIdOf cfg) cfg.chain_name true,
           Event.createChain env.realSubnetId (vmIdOf cfg) cfg.chain_name false]) ∧
    (∀ n s o d, Event.addSubnetValidator n s o d ∈ (execute cfg env).2 →
      s = env.realSubnetId) ∧
    (∀ doc tgts args, Event.sendCommand doc tgts args ∈ (execute cfg env).2 →
      args = install_subnet_args cfg env.realSubnetId
        ∨ args = install_chain_args cfg env.realChainId) := by
  refine ⟨fun x y => rfl, fun r h => ?_, fun n s o d hmem => ?_,
    fun doc tgts args hmem => ?_⟩
  · obtain ⟨ht, hr⟩ := execute_success cfg env r h
    rw [ht]
    exact ⟨hr, filter_createSubnet_fullTrace cfg env, filter_createChain_fullTrace cfg env⟩
  · exact (addSubnetValidator_mem_fullTrace cfg env
      (mem_of_isTracePre (execute_pre cfg env) hmem)).1
  · exact (sendCommand_mem_fullTrace cfg env
      (mem_of_isTracePre (execute_pre cfg env) hmem)).2.2

/-- C3 witness: in the concrete base run, changing the dry-pass ids leaves
    the run unchanged, and the subnet-creation issuances are exactly the
    dry pass followed by the real pass. -/
theorem C3_dry_then_real_witness :
    execute baseCfg { baseEnv with drySubnetId := "X", dryChainId := "Y" }
        = execute baseCfg baseEnv ∧
    (execute baseCfg baseEnv).2.filter isCreateSubnetEvent
        = [Event.createSubnet true, Event.createSubnet false] :=
  ⟨(C3_dry_then_real baseCfg baseEnv).1 "X" "Y",
   ((C3_dry_then_real baseCfg baseEnv).2.1
     ("2ebCneCbwthjQ1rYT41nhd7M76Hc6YmosMAQrTFhBq8qeqh6tt", "BID") (by decide)).2.1⟩

/-- C4 counterexample: with key prefix "pre/" and subnet-config local path
    "configs/subnet-config.json", the run stages the subnet config under
    key "pre/subnet-config" — the file stem, not prefix + basename
    "pre/subnet-config.json" as the claim states. -/
theorem C4_key_counterexample :
    Event.putObject ArtifactKind.subnetConfig "configs/subnet-config.json" "my-bucket"
        "pre/subnet-config" ∈ (execute keyCfg baseEnv).2
    ∧ subnet_config_s3_key keyCfg
        ≠ append_slash keyCfg.s3_key_prefix ++ baseName keyCfg.subnet_config_local_path := by
  constructor <;> decide

/-- C4 amended: every staged object key is the slash-normalized prefix
    followed by the file stem (basename with its extension dropped) of the
    local path for the subnet- and chain-config artifacts, and by the VM id
    for the VM binary; the VM binary key is independent of the VM binary's
    local filename, and key rendering is a pure function of the request. -/
theorem C4_key_convention (cfg : Flags) (env : Env) :
    (∀ k p b key, Event.putObject k p b key ∈ (execute cfg env).2 →
      b = cfg.s3_bucket ∧
      (k = ArtifactKind.subnetConfig →
        p = cfg.subnet_config_local_path ∧
        key = append_slash cfg.s3_key_prefix ++ fileStem cfg.subnet_config_local_path) ∧
      (k = ArtifactKind.vmBinary →
        key = append_slash cfg.s3_key_prefix ++ vmIdOf cfg) ∧
      (k = ArtifactKind.chainConfig →
        p = cfg.chain_config_local_path ∧
        key = append_slash cfg.s3_key_prefix ++ fileStem cfg.chain_config_local_path)) ∧
    (∀ path2, vm_binary_s3_key { cfg with vm_binary_local_path := path2 }
        = vm_binary_s3_key cfg) := by
  constructor
  · intro k p b key hmem
    obtain ⟨hb, hcases⟩ := putObject_mem_fullTrace cfg env
      (mem_of_isTracePre (execute_pre cfg env) hmem)
    refine ⟨hb, fun hk => ?_, fun hk => ?_, fun hk => ?_⟩ <;> subst hk <;>
      rcases hcases with ⟨hk2, hp, hkey⟩ | ⟨hk2, hp, hkey⟩ | ⟨hk2, hp, hkey⟩ <;>
      first
        | exact ⟨hp, hkey⟩
        | exact hkey
        | cases hk2
  · intro path2
    rfl

/-- C4 witness: the VM binary staged in the concrete run with a
    subnet-config file carries key prefix + VM id. -/
theorem C4_key_convention_witness :
    "my-bucket" = keyCfg.s3_bucket ∧
    (ArtifactKind.vmBinary = ArtifactKind.subnetConfig →
      "bin/vm" = keyCfg.subnet_config_local_path ∧
      "pre/srEXiWaHuhNyGwPUi444Tu47ZEDwxTWrbQiuD7FmgSAQ6X7Dy"
        = append_slash keyCfg.s3_key_prefix ++ fileStem keyCfg.subnet_config_local_path) ∧
    (ArtifactKind.vmBinary = ArtifactKind.vmBinary →
      "pre/srEXiWaHuhNyGwPUi444Tu47ZEDwxTWrbQiuD7FmgSAQ6X7Dy"
        = append_slash keyCfg.s3_key_prefix ++ vmIdOf keyCfg) ∧
    (ArtifactKind.vmBinary = ArtifactKind.chainConfig →
      "bin/vm" = keyCfg.chain_config_local_path ∧
      "pre/srEXiWaHuhNyGwPUi444Tu47ZEDwxTWrbQiuD7FmgSAQ6X7Dy"
        = append_slash keyCfg.s3_key_prefix ++ fileStem keyCfg.chain_config_local_path) :=
  (C4_key_convention keyCfg baseEnv).1 ArtifactKind.vmBinary "bin/vm" "my-bucket"
    "pre/srEXiWaHuhNyGwPUi444Tu47ZEDwxTWrbQiuD7FmgSAQ6X7Dy" (by decide)

/-- C5 counterexample: the install command dispatched by the concrete base
    run does not begin with the subcommand name "install-subnet-chain";
    the rendered line begins with "install-subnet". -/
theorem C5_subcommand_counterexample :
    Event.sendCommand "doc" ["i1", "i2"]
        (install_subnet_args baseCfg "2ebCneCbwthjQ1rYT41nhd7M76Hc6YmosMAQrTFhBq8qeqh6tt")
      ∈ (execute baseCfg baseEnv).2
    ∧ strStartsWith
        (install_subnet_args baseCfg "2ebCneCbwthjQ1rYT41nhd7M76Hc6YmosMAQrTFhBq8qeqh6tt")
        "install-subnet-chain" = false
    ∧ strStartsWith
        (install_subnet_args baseCfg "2ebCneCbwthjQ1rYT41nhd7M76Hc6YmosMAQrTFhBq8qeqh6tt")
        "install-subnet " = true := by
  refine ⟨by decide, by decide, by decide⟩

/-- C5 amended: every successful run dispatches the rendered install
    command to all targets, and that command is exactly the literal
    template beginning with the subcommand name `install-subnet` followed
    by `--log-level info --region <r> --s3-bucket <b> --vm-binary-s3-key
    <k> --vm-binary-local-path <dir/vmid> --subnet-id-to-track <id>
    --avalanchego-config-path <p>`, with `--subnet-config-s3-key` and
    `--subnet-config-local-path <dir/subnetid.json>` appended if and only
    if a subnet-config local path was given (no subnet config: no
    `--subnet-config-*` flags are appended). -/
theorem C5_install_command_contract (cfg : Flags) (env : Env) (r : String × String)
    (h : (execute cfg env).1 = ExecResult.success (some r)) :
    Event.sendCommand cfg.ssm_doc (instanceIds cfg)
        (install_subnet_args cfg env.realSubnetId) ∈ (execute cfg env).2
    ∧ (cfg.subnet_config_local_path = "" →
        install_subnet_args cfg env.realSubnetId
          = "install-subnet --log-level info --region " ++ cfg.region
            ++ " --s3-bucket " ++ cfg.s3_bucket
            ++ " --vm-binary-s3-key " ++ (append_slash cfg.s3_key_prefix ++ vmIdOf cfg)
            ++ " --vm-binary-local-path "
              ++ (append_slash cfg.vm_binary_remote_dir ++ vmIdOf cfg)
            ++ " --subnet-id-to-track " ++ env.realSubnetId
            ++ " --avalanchego-config-path " ++ cfg.avalanchego_config_remote_path)
    ∧ (cfg.subnet_config_local_path ≠ "" →
        install_subnet_args cfg env.realSubnetId
          = "install-subnet --log-level info --region " ++ cfg.region
            ++ " --s3-bucket " ++ cfg.s3_bucket
            ++ " --vm-binary-s3-key " ++ (append_slash cfg.s3_key_prefix ++ vmIdOf cfg)
            ++ " --vm-binary-local-path "
              ++ (append_slash cfg.vm_binary_remote_dir ++ vmIdOf cfg)
            ++ " --subnet-id-to-track " ++ env.realSubnetId
            ++ " --avalanchego-config-path " ++ cfg.avalanchego_config_remote_path
            ++ " --subnet-config-s3-key "
              ++ (append_slash cfg.s3_key_prefix ++ fileStem cfg.subnet_config_local_path)
            ++ " --subnet-config-local-path "
              ++ (append_slash cfg.subnet_config_remote_dir ++ env.realSubnetId ++ ".json")) := by
  refine ⟨?_, fun hp => ?_, fun hp => ?_⟩
  · rw [(execute_success cfg env r h).1]
    exact sendInstall_mem_fullTrace cfg env
  · unfold install_subnet_args install_subnet_subcmd vm_binary_s3_key
    rw [if_neg (by simp [hp])]
  · unfold install_subnet_args install_subnet_subcmd vm_binary_s3_key subnet_config_s3_key
    rw [if_pos hp]

/-- C5 witness: the concrete base run dispatches the rendered install
    command to both targets. -/
theorem C5_install_command_contract_witness :
    Event.sendCommand baseCfg.ssm_doc (instanceIds baseCfg)
        (install_subnet_args baseCfg baseEnv.realSubnetId) ∈ (execute baseCfg baseEnv).2 :=
  (C5_install_command_contract baseCfg baseEnv
    ("2ebCneCbwthjQ1rYT41nhd7M76Hc6YmosMAQrTFhBq8qeqh6tt", "BID") (by decide)).1

/-- C6 counterexample: in a concrete run where polling target i1 observes
    a failure status, execute still returns the success report — a failing
    per-target poll result does not make the stage or the run fail. -/
theorem C6_poll_failure_counterexample :
    (execute baseCfg
        { baseEnv with pollInstall := fun i => if i = "i1" then PollStatus.failure
            else PollStatus.success }).1
      = ExecResult.success
          (some ("2ebCneCbwthjQ1rYT41nhd7M76Hc6YmosMAQrTFhBq8qeqh6tt", "BID"))
    ∧ Event.pollResult "i1" PollStatus.failure
        ∈ (execute baseCfg
            { baseEnv with pollInstall := fun i => if i = "i1" then PollStatus.failure
                else PollStatus.success }).2 := by
  refine ⟨by decide, by decide⟩

/-- C6 amended: when the dispatch-and-poll stage completes, the trace holds
    one poll entry per target — including targets whose observed status is
    success — but the per-target statuses do not influence the outcome: a
    run whose other interactions all succeed returns the success report no
    matter what terminal status each target's poll observes. -/
theorem C6_poll_reporting (cfg : Flags) (env : Env)
    (hvm : env.vmBinaryExists = true)
    (hscd : ¬ (cfg.subnet_config_local_path ≠ "" ∧ cfg.subnet_config_remote_dir = ""))
    (hccd : ¬ (cfg.chain_config_local_path ≠ "" ∧ cfg.chain_config_remote_dir = ""))
    (hg : env.chainGenesisExists = true) (hgr : env.genesisReadOk = true)
    (hnet : env.networkIdOk = true) (hkey : env.keyParseOk = true)
    (hw : env.walletBuildOk = true) (hb : env.balanceOk = true)
    (hlc : env.loadConfigOk = true) (hid : env.identityOk = true)
    (hpr : ¬ (¬ cfg.skip_prompt = true ∧ env.promptSelection = 0))
    (hsc : cfg.subnet_config_local_path ≠ "" →
      env.subnetConfigExists = true ∧ env.putSubnetConfigOk = true)
    (hvmput : env.putVmBinaryOk = true)
    (hcc : cfg.chain_config_local_path ≠ "" →
      env.chainConfigExists = true ∧ env.putChainConfigOk = true)
    (hstake : cast_avax_to_xp_navax cfg.staking_amount_in_avax < u64Bound)
    (hav : ∀ n, env.addValidatorOk n = true)
    (hds : env.drySubnetOk = true) (hrs : env.realSubnetOk = true)
    (hsend : env.sendInstallOk = true)
    (hall : ∀ n, env.addSubnetValidatorOk n = true)
    (h1 : env.dryChainOk = true) (h2 : env.realChainOk = true)
    (h3 : env.sendChainConfigOk = true) :
    (execute cfg env).1 = ExecResult.success (some (env.realSubnetId, env.realChainId))
    ∧ ∀ i ∈ instanceIds cfg,
        Event.pollResult i (env.pollInstall i) ∈ (execute cfg env).2 := by
  have hres := execute_complete cfg env hvm hscd hccd hg hgr hnet hkey hw hb hlc hid hpr
    hsc hvmput hcc hstake hav hds hrs hsend hall h1 h2 h3
  refine ⟨hres, fun i hi => ?_⟩
  rw [(execute_success cfg env _ hres).1]
  exact pollInstall_mem_fullTrace cfg env hi

/-- C6 witness: the base run with every poll observing a timeout still
    succeeds and holds a poll entry for each of the two targets. -/
theorem C6_poll_reporting_witness :
    (execute baseCfg { baseEnv with pollInstall := fun _ => PollStatus.timeout }).1
      = ExecResult.success
          (some ("2ebCneCbwthjQ1rYT41nhd7M76Hc6YmosMAQrTFhBq8qeqh6tt", "BID"))
    ∧ ∀ i ∈ instanceIds baseCfg,
        Event.pollResult i PollStatus.timeout
          ∈ (execute baseCfg { baseEnv with pollInstall := fun _ => PollStatus.timeout }).2 :=
  C6_poll_reporting baseCfg { baseEnv with pollInstall := fun _ => PollStatus.timeout }
    rfl (by simp [baseCfg]) (by simp [baseCfg]) rfl rfl rfl rfl rfl rfl rfl rfl
    (by simp [baseCfg]) (fun h => absurd rfl h) rfl (fun h => absurd rfl h)
    (by norm_num [cast_avax_to_xp_navax, u64Bound, baseCfg])
    (fun _ => rfl) rfl rfl rfl (fun _ => rfl) rfl rfl rfl

/-- C7 counterexample: with a chain-config local path set and the file
    missing, the run returns the input error only after the VM binary was
    already uploaded — a side effect precedes the missing-file error, so
    the error is not detected in Preflight before any side effect. -/
theorem C7_late_chain_config_check_counterexample :
    (execute chainCfgCfg { baseEnv with chainConfigExists := false }).1
      = ExecResult.failure ErrKind.invalidInput
          "subnet chain config file 'configs/chain-config.json' not found"
    ∧ Event.putObject ArtifactKind.vmBinary "bin/vm" "my-bucket"
        "pre/srEXiWaHuhNyGwPUi444Tu47ZEDwxTWrbQiuD7FmgSAQ6X7Dy"
      ∈ (execute chainCfgCfg { baseEnv with chainConfigExists := false }).2 := by
  refine ⟨by decide, by decide⟩

/-- C7 amended: the missing-file errors all name the offending path, but
    they are detected at different points: the VM binary and genesis
    checks run up front, before any event; the subnet-config existence
    check runs at the start of artifact staging, after only the read-only
    lookups; and the chain-config existence check runs only after the VM
    binary (and any subnet config) was already uploaded, so that error
    does not precede every side effect. -/
theorem C7_missing_file_detection :
    (∀ cfg env, env.vmBinaryExists = false →
      execute cfg env = (ExecResult.failure ErrKind.invalidInput
        ("vm binary file '" ++ cfg.vm_binary_local_path ++ "' not found"), [])) ∧
    (∀ cfg env, env.vmBinaryExists = true →
      ¬ (cfg.subnet_config_local_path ≠ "" ∧ cfg.subnet_config_remote_dir = "") →
      ¬ (cfg.chain_config_local_path ≠ "" ∧ cfg.chain_config_remote_dir = "") →
      env.chainGenesisExists = false →
      execute cfg env = (ExecResult.failure ErrKind.invalidInput
        ("chain genesis file '" ++ cfg.chain_genesis_path ++ "' not found"), [])) ∧
    (∀ cfg env, env.vmBinaryExists = true →
      ¬ (cfg.subnet_config_local_path ≠ "" ∧ cfg.subnet_config_remote_dir = "") →
      ¬ (cfg.chain_config_local_path ≠ "" ∧ cfg.chain_config_remote_dir = "") →
      env.chainGenesisExists = true → env.genesisReadOk = true →
      env.networkIdOk = true → env.keyParseOk = true → env.walletBuildOk = true →
      env.balanceOk = true → env.loadConfigOk = true → env.identityOk = true →
      ¬ (¬ cfg.skip_prompt = true ∧ env.promptSelection = 0) →
      cfg.subnet_config_local_path ≠ "" → env.subnetConfigExists = false →
      execute cfg env = (ExecResult.failure ErrKind.invalidInput
        ("subnet config file '" ++ cfg.subnet_config_local_path ++ "' not found"),
       [Event.getNetworkId, Event.getBalance, Event.getIdentity])) ∧
    (∀ cfg env, env.vmBinaryExists = true →
      ¬ (cfg.subnet_config_local_path ≠ "" ∧ cfg.subnet_config_remote_dir = "") →
      ¬ (cfg.chain_config_local_path ≠ "" ∧ cfg.chain_config_remote_dir = "") →
      env.chainGenesisExists = true → env.genesisReadOk = true →
      env.networkIdOk = true → env.keyParseOk = true → env.walletBuildOk = true →
      env.balanceOk = true → env.loadConfigOk = true → env.identityOk = true →
      ¬ (¬ cfg.skip_prompt = true ∧ env.promptSelection = 0) →
      cfg.subnet_config_local_path = "" → env.putVmBinaryOk = true →
      cfg.chain_config_local_path ≠ "" → env.chainConfigExists = false →
      execute cfg env = (ExecResult.failure ErrKind.invalidInput
        ("subnet chain config file '" ++ cfg.chain_config_local_path ++ "' not found"),
       [Event.getNetworkId, Event.getBalance, Event.getIdentity,
        Event.putObject ArtifactKind.vmBinary cfg.vm_binary_local_path cfg.s3_bucket
          (vm_binary_s3_key cfg)])) := by
  refine ⟨fun cfg env h => ?_, fun cfg env h1 h2 h3 h4 => ?_, ?_, ?_⟩
  · unfold execute
    rw [if_pos (by simp [h])]
  · unfold execute
    rw [if_neg (by simp [h1]), if_neg h2, if_neg h3, if_pos (by simp [h4])]
  · intro cfg env hvm hscd hccd hg hgr hnet hkey hw hb hlc hid hpr hp hex
    rw [execute_reaches_staging cfg env hvm hscd hccd hg hgr hnet hkey hw hb hlc hid hpr,
      stageArtifactsStage_subnet_missing cfg env hp hex]
  · intro cfg env hvm hscd hccd hg hgr hnet hkey hw hb hlc hid hpr hsc hvmput hp hex
    rw [execute_reaches_staging cfg env hvm hscd hccd hg hgr hnet hkey hw hb hlc hid hpr,
      stageArtifactsStage_chain_missing cfg env hsc hvmput hp hex]

/-- C7 witness: a run with no VM binary file fails with the input error
    naming the path and performs no interaction at all. -/
theorem C7_missing_file_detection_witness :
    execute baseCfg { baseEnv with vmBinaryExists := false }
      = (ExecResult.failure ErrKind.invalidInput "vm binary file 'bin/vm' not found", []) :=
  C7_missing_file_detection.1 baseCfg { baseEnv with vmBinaryExists := false } rfl

/-- C8: a request with a subnet-config local path but no subnet-config
    remote directory, and a request whose chain genesis file does not
    exist, are rejected with an input error before any interaction at all
    (the trace is empty — in particular no network call); the reverse flag
    combination (remote directory set, local path empty) is not rejected:
    such a run proceeds to the network-id lookup. -/
theorem C8_preflight_rejections :
    (∀ cfg env, cfg.subnet_config_local_path ≠ "" → cfg.subnet_config_remote_dir = "" →
      ∃ m, execute cfg env = (ExecResult.failure ErrKind.invalidInput m, [])) ∧
    (∀ cfg env, env.chainGenesisExists = false →
      ∃ m, execute cfg env = (ExecResult.failure ErrKind.invalidInput m, [])) ∧
    (∀ cfg env, cfg.subnet_config_local_path = "" → env.vmBinaryExists = true →
      ¬ (cfg.chain_config_local_path ≠ "" ∧ cfg.chain_config_remote_dir = "") →
      env.chainGenesisExists = true → env.genesisReadOk = true →
      ∃ t, (execute cfg env).2 = Event.getNetworkId :: t) := by
  refine ⟨fun cfg env hp hd => ?_, fun cfg env hg => ?_, fun cfg env hsc hvm hccd hg hgr => ?_⟩
  · unfold execute
    by_cases h1 : env.vmBinaryExists = true
    · rw [if_neg (by simp [h1]), if_pos ⟨hp, hd⟩]
      exact ⟨_, rfl⟩
    · rw [if_pos (by simp [h1])]
      exact ⟨_, rfl⟩
  · unfold execute
    by_cases h1 : env.vmBinaryExists = true
    · rw [if_neg (by simp [h1])]
      by_cases h2 : cfg.subnet_config_local_path ≠ "" ∧ cfg.subnet_config_remote_dir = ""
      · rw [if_pos h2]
        exact ⟨_, rfl⟩
      · rw [if_neg h2]
        by_cases h3 : cfg.chain_config_local_path ≠ "" ∧ cfg.chain_config_remote_dir = ""
        · rw [if_pos h3]
          exact ⟨_, rfl⟩
        · rw [if_neg h3, if_pos (by simp [hg])]
          exact ⟨_, rfl⟩
    · rw [if_pos (by simp [h1])]
      exact ⟨_, rfl⟩
  · unfold execute lookupsStage
    rw [if_neg (by simp [hvm]), if_neg (by simp [hsc]), if_neg hccd,
      if_neg (by simp [hg]), if_neg (by simp [hgr])]
    split_ifs
    all_goals exact ⟨_, rfl⟩

/-- C8 witness: the concrete rejected request (local subnet-config path
    set, remote directory empty) fails with an input error and an empty
    trace, and the reverse combination (remote directory set, local path
    empty) reaches the network-id lookup. -/
theorem C8_preflight_rejections_witness :
    (∃ m, execute { baseCfg with subnet_config_local_path := "s.json" } baseEnv
      = (ExecResult.failure ErrKind.invalidInput m, []))
    ∧ (∃ t, (execute { baseCfg with subnet_config_remote_dir := "/subnet-configs" }
        baseEnv).2 = Event.getNetworkId :: t) :=
  ⟨C8_preflight_rejections.1 { baseCfg with subnet_config_local_path := "s.json" }
      baseEnv (by decide) rfl,
   C8_preflight_rejections.2.2 { baseCfg with subnet_config_remote_dir := "/subnet-configs" }
      baseEnv rfl rfl (by simp [baseCfg]) rfl rfl⟩

/-- C9 counterexample: the node-id map parser accepts a map in which two
    node ids share one instance id (instance-id uniqueness is not
    enforced), and the staking-period argument accepts 0, a value that is
    not greater than 1 and for which the subnet-validator period
    computation `staking_period_in_days - 1` underflows, wrapping to
    2^64 - 1. -/
theorem C9_invariants_counterexample :
    node_map_from_entries [("n1", "i1"), ("n2", "i1")] = [("n1", "i1"), ("n2", "i1")]
    ∧ ¬ ((node_map_from_entries [("n1", "i1"), ("n2", "i1")]).map Prod.snd).Nodup
    ∧ staking_period_accepted 0
    ∧ ¬ 1 < (0 : Nat)
    ∧ u64_wrapping_sub 0 1 = u64Bound - 1 := by
  refine ⟨by decide, by decide, ?_, by decide, by decide⟩
  show (0 : Nat) < u64Bound
  norm_num [u64Bound]

/-- C9 amended: accepted requests guarantee node-id uniqueness only (the
    map's keys are deduplicated, last entry winning); instance-id
    uniqueness and a staking period greater than one day are not enforced,
    and for every accepted period of at least one day the subnet-validator
    period computation d - 1 does not underflow. -/
theorem C9_accepted_request_invariants :
    (∀ entries, ((node_map_from_entries entries).map Prod.fst).Nodup) ∧
    (∀ d, staking_period_accepted d → 1 ≤ d → u64_wrapping_sub d 1 = d - 1) :=
  ⟨node_map_keys_nodup, fun _ hd h1 => u64_wrapping_sub_one h1 hd⟩

/-- C9 witness: the base request's map keys are unique, and the staking
    period 15 yields the subnet-validator period 14 without underflow. -/
theorem C9_accepted_request_invariants_witness :
    ((node_map_from_entries [("n1", "i1"), ("n2", "i2")]).map Prod.fst).Nodup
    ∧ u64_wrapping_sub 15 1 = 15 - 1 :=
  ⟨C9_accepted_request_invariants.1 [("n1", "i1"), ("n2", "i2")],
   C9_accepted_request_invariants.2 15 (by norm_num [staking_period_accepted, u64Bound])
     (by norm_num)⟩

/-- C10: when the prompt is shown (skip_prompt false) and the operator
    keeps the default decline option (selection 0), execute returns Ok
    immediately, with exactly the three read-only lookups (network id,
    balance, caller identity) performed — no upload, no ledger issuance,
    no command dispatch. -/
theorem C10_prompt_decline (cfg : Flags) (env : Env)
    (hskip : cfg.skip_prompt = false) (hsel : env.promptSelection = 0)
    (hvm : env.vmBinaryExists = true)
    (hscd : ¬ (cfg.subnet_config_local_path ≠ "" ∧ cfg.subnet_config_remote_dir = ""))
    (hccd : ¬ (cfg.chain_config_local_path ≠ "" ∧ cfg.chain_config_remote_dir = ""))
    (hg : env.chainGenesisExists = true) (hgr : env.genesisReadOk = true)
    (hnet : env.networkIdOk = true) (hkey : env.keyParseOk = true)
    (hw : env.walletBuildOk = true) (hb : env.balanceOk = true)
    (hlc : env.loadConfigOk = true) (hid : env.identityOk = true) :
    execute cfg env = (ExecResult.success none,
      [Event.getNetworkId, Event.getBalance, Event.getIdentity]) := by
  unfold execute lookupsStage
  rw [if_neg (by simp [hvm]), if_neg hscd, if_neg hccd, if_neg (by simp [hg]),
    if_neg (by simp [hgr]), if_neg (by simp [hnet]), if_neg (by simp [hkey]),
    if_neg (by simp [hw]), if_neg (by simp [hb]), if_neg (by simp [hlc]),
    if_neg (by simp [hid]), if_pos ⟨by simp [hskip], hsel⟩]

/-- C10 witness: the base run with the prompt shown and the default
    decline selection returns Ok after only the three lookups. -/
theorem C10_prompt_decline_witness :
    execute { baseCfg with skip_prompt := false }
        { baseEnv with promptSelection := 0 }
      = (ExecResult.success none,
         [Event.getNetworkId, Event.getBalance, Event.getIdentity]) :=
  C10_prompt_decline { baseCfg with skip_prompt := false }
    { baseEnv with promptSelection := 0 } rfl rfl rfl (by simp [baseCfg])
    (by simp [baseCfg]) rfl rfl rfl rfl rfl rfl rfl rfl
